import Mathlib

/-!
Shallow embedding of `update_notifier` (`src/handlers.py`, `src/app.py`).

The repository is a telegram bot that monitors URLs: a `Scraper` class owns a
polling thread, a `threading.Event` cancellation signal, an endpoint and an
interval; a dict `urls : chat_id -> name -> Scraper` is shared by the command
handlers `add`, `remove`, `list_urls`, `end`, `timer`, `timer_set`.

Modelling choices:
- Python dicts become association lists (`lookupk` / `setk` / `popk` mirror
  `d[k]`, `d[k] = v`, `d.pop(k)`); `setk` replaces in place, preserving key
  position, as CPython dicts do.
- Python object identity is modelled with a store `ScraperId -> Scraper`:
  the registry maps names to ids, so aliasing an orphaned Scraper is visible.
- Raised-and-uncaught Python exceptions are threaded as an `Option PyErr`
  component of each handler's result; mutations performed before a raise
  persist, as they do on Python objects.
- `threading.Thread.start` raises `RuntimeError` when called a second time on
  the same thread object; `Scraper.__init__` creates its single Thread object
  once, so `Scraper.start` is modelled with a `thread_started` flag.
- `threading.Event` is modelled by `evt_set : Bool` plus a generation counter
  `evt_gen` that is bumped when the setter replaces the Event object.
- `bot.send_message(...)` call sites are recorded literally: positional
  arguments and the `chat_id=` / `text=` keywords actually passed.
- the poll loop `_search_for_updates` is driven by oracles: `baseline` is the
  result of the initial `requests.get` (`none` = the request raised),
  `fetch n` the result of the n-th in-loop `requests.get`, `wait n` the value
  returned by the n-th `self._evt.wait(self._interval)` call, and a fuel
  bounds the number of loop iterations observed.
-/

set_option autoImplicit false

namespace UpdateNotifier

/-- Uncaught Python exception classes that the handlers can raise or catch. -/
inductive PyErr where
  | indexError
  | valueError
  | keyError
  | runtimeError
  deriving DecidableEq, Repr

section AssocOps

variable {α : Type} {β : Type} [BEq α]

/-- Association-list model of Python dict read `d[k]` / `k in d`. -/
def lookupk : List (α × β) → α → Option β
  | [], _ => none
  | (a, b) :: t, k => if a == k then some b else lookupk t k

/-- Association-list model of Python dict write `d[k] = v`: replaces the value
in place when the key is present, appends otherwise. -/
def setk : List (α × β) → α → β → List (α × β)
  | [], k, v => [(k, v)]
  | (a, b) :: t, k, v => if a == k then (k, v) :: t else (a, b) :: setk t k v

/-- Association-list model of Python dict `d.pop(k)` (the removal part). -/
def popk : List (α × β) → α → List (α × β)
  | [], _ => []
  | (a, b) :: t, k => if a == k then t else (a, b) :: popk t k

theorem lookupk_setk_self [LawfulBEq α] (l : List (α × β)) (k : α) (v : β) :
    lookupk (setk l k v) k = some v := by
  induction l with
  | nil => simp [setk, lookupk]
  | cons p t ih =>
    obtain ⟨a, b⟩ := p
    by_cases h : a == k
    · simp [setk, h, lookupk]
    · simp only [setk, h, if_neg]
      simp only [Bool.not_eq_true] at h
      simp [lookupk, h, ih]

theorem lookupk_setk_ne [LawfulBEq α] (l : List (α × β)) (k k' : α) (v : β)
    (h : k' ≠ k) : lookupk (setk l k v) k' = lookupk l k' := by
  have hk' : ¬(k == k') = true := fun e => h (eq_of_beq e).symm
  induction l with
  | nil => simp [setk, lookupk, hk']
  | cons p t ih =>
    obtain ⟨a, b⟩ := p
    by_cases hk : a == k
    · have ha : ¬(a == k') = true := by
        intro e
        exact hk' (by rw [← eq_of_beq hk]; exact e)
      simp [setk, hk, lookupk, hk', ha]
    · by_cases ha : a == k'
      · simp [setk, hk, lookupk, ha]
      · simp [setk, hk, lookupk, ha, ih]

theorem mem_setk (l : List (α × β)) (k : α) (v : β) :
    ∀ p, p ∈ setk l k v → p ∈ l ∨ p = (k, v) := by
  induction l with
  | nil => intro p hp; simp [setk] at hp; exact Or.inr hp
  | cons q t ih =>
    obtain ⟨a, b⟩ := q
    intro p hp
    by_cases h : a == k
    · simp only [setk, h, if_pos] at hp
      rcases List.mem_cons.mp hp with h1 | h1
      · exact Or.inr h1
      · exact Or.inl (List.mem_cons_of_mem _ h1)
    · simp only [setk, h, if_neg] at hp
      rcases List.mem_cons.mp hp with h1 | h1
      · exact Or.inl (by simp [h1])
      · rcases ih p h1 with h2 | h2
        · exact Or.inl (List.mem_cons_of_mem _ h2)
        · exact Or.inr h2

theorem mem_popk (l : List (α × β)) (k : α) :
    ∀ p, p ∈ popk l k → p ∈ l := by
  induction l with
  | nil => intro p hp; simp [popk] at hp
  | cons q t ih =>
    obtain ⟨a, b⟩ := q
    intro p hp
    by_cases h : a == k
    · simp only [popk, h, if_pos] at hp
      exact List.mem_cons_of_mem _ hp
    · simp only [popk, h, if_neg] at hp
      rcases List.mem_cons.mp hp with h1 | h1
      · exact List.mem_cons.mpr (Or.inl h1)
      · exact List.mem_cons_of_mem _ (ih p h1)

theorem lookupk_mem (l : List (α × β)) (k : α) (v : β) [LawfulBEq α]
    (h : lookupk l k = some v) : (k, v) ∈ l := by
  induction l with
  | nil => simp [lookupk] at h
  | cons q t ih =>
    obtain ⟨a, b⟩ := q
    by_cases hk : a == k
    · have ha : a = k := eq_of_beq hk
      subst ha
      simp only [lookupk, beq_self_eq_true, if_pos] at h
      obtain rfl : b = v := Option.some.inj h
      exact List.mem_cons_self _ _
    · simp only [lookupk, hk, if_neg] at h
      exact List.mem_cons_of_mem _ (ih h)

end AssocOps

/-- State of one `Scraper` object (`handlers.py`, class `Scraper`): endpoint,
owning chat id, `_interval`, the `_evt` cancellation Event (set-flag plus an
object-generation counter bumped when the timer setter replaces the Event),
and whether `_thread.start()` has already been called on its Thread object. -/
structure Scraper where
  endp : String
  chat_id : String
  interval : Int
  evt_set : Bool
  evt_gen : Nat
  thread_started : Bool
  deriving DecidableEq, Repr

/-- Model of `Scraper.__init__(chat_id, bot, endp, interval)`: raises
`ValueError` when an interval is supplied and is `≤ 0`, otherwise stores the
interval (default `15 * 60`), a fresh unset Event and an unstarted Thread. -/
def Scraper.init (chat_id endp : String) (interval : Option Int) :
    Except PyErr Scraper :=
  match interval with
  | some i =>
      if i ≤ 0 then Except.error PyErr.valueError
      else Except.ok
        { endp := endp, chat_id := chat_id, interval := i,
          evt_set := false, evt_gen := 0, thread_started := false }
  | none => Except.ok
      { endp := endp, chat_id := chat_id, interval := 15 * 60,
        evt_set := false, evt_gen := 0, thread_started := false }

/-- Model of `Scraper.start`: `threading.Thread.start()` raises `RuntimeError`
when the same Thread object is started a second time, and the `Scraper` never
replaces its `_thread` object. -/
def Scraper.start (s : Scraper) : Scraper × Option PyErr :=
  if s.thread_started then (s, some PyErr.runtimeError)
  else ({ s with thread_started := true }, none)

/-- Model of `Scraper.stop`: sets the cancellation Event. -/
def Scraper.stop (s : Scraper) : Scraper :=
  { s with evt_set := true }

/-- Model of the `Scraper.timer` property setter: assigns `_interval`, calls
`stop()`, replaces `_evt` with a fresh Event, then calls `start()` (which
raises `RuntimeError` whenever the Thread object was already started; the
mutations made before the raise persist). -/
def Scraper.setTimer (s : Scraper) (interval : Int) : Scraper × Option PyErr :=
  let s1 := { s with interval := interval }
  let s2 := Scraper.stop s1
  let s3 := { s2 with evt_set := false, evt_gen := s2.evt_gen + 1 }
  Scraper.start s3

theorem setTimer_fst_interval (s : Scraper) (i : Int) :
    (Scraper.setTimer s i).1.interval = i := by
  by_cases h : s.thread_started <;>
    simp [Scraper.setTimer, Scraper.start, Scraper.stop, h]

theorem start_fst_interval (s : Scraper) :
    (Scraper.start s).1.interval = s.interval := by
  by_cases h : s.thread_started <;> simp [Scraper.start, h]

/-- Record of one `bot.send_message(...)` call exactly as issued at a call
site in `handlers.py`: the positional arguments and the `chat_id=` / `text=`
keyword arguments that were actually passed. -/
structure SendCall where
  args : List String
  kw_chat_id : Option String
  kw_text : Option String
  deriving DecidableEq, Repr

/-- The call `bot.send_message("invalid endpoint, closing connection...")` on
fetch failure (`handlers.py` line 91): a single positional argument, no
`chat_id=` and no `text=` keyword. -/
def errCall : SendCall :=
  { args := ["invalid endpoint, closing connection..."],
    kw_chat_id := none, kw_text := none }

/-- The change-notification call
`bot.send_message(chat_id=self._chat_id, text=f"Updated: ...")`
(`handlers.py` line 95). -/
def updCall (chat_id endp : String) : SendCall :=
  { args := [], kw_chat_id := some chat_id,
    kw_text := some ("Updated: " ++ endp) }

/-- Predicate: a `send_message` call is addressed to `tenant`, either through
the `chat_id=` keyword or through the first positional argument (which binds
to the `chat_id` parameter of `telegram.Bot.send_message`). -/
def sendAddressedTo (m : SendCall) (tenant : String) : Prop :=
  m.kw_chat_id = some tenant ∨ m.args.head? = some tenant

instance (m : SendCall) (t : String) : Decidable (sendAddressedTo m t) := by
  unfold sendAddressedTo
  infer_instance

/-- How an observed run of `Scraper._search_for_updates` ended. -/
inductive LoopOutcome where
  /-- `self._evt.wait(...)` returned `True`: the `while` condition failed and
  the method returned normally. -/
  | cancelled
  /-- an in-loop `requests.get` raised: the `except` branch sent the error
  message and returned. -/
  | errorHalt
  /-- the initial baseline `requests.get` (line 86, outside any `try`) raised:
  the exception escapes `_search_for_updates` and the thread dies. -/
  | baselineRaise
  /-- the observation fuel ran out with the loop still iterating. -/
  | running
  deriving DecidableEq, Repr

/-- Observation of one run of the poll loop: `send_message` calls in order,
number of `self._evt.wait` calls performed, number of `requests.get` calls
attempted (baseline included), and how the run ended. -/
structure LoopRun where
  sent : List SendCall
  waits : Nat
  fetches : Nat
  outcome : LoopOutcome
  deriving DecidableEq, Repr

/-- Iterations of the `while not self._evt.wait(self._interval):` loop of
`Scraper._search_for_updates`, starting at iteration `n` with snapshot
`cache`, observed for `fuel` iterations. `wait n` is the value the n-th
`_evt.wait` call returns; `fetch n` is the n-th in-loop `requests.get` result
(`none` = the request raised). -/
def pollIters (chat_id endp : String) (fetch : Nat → Option String)
    (wait : Nat → Bool) : Nat → Nat → String → LoopRun
  | 0, _, _ => { sent := [], waits := 0, fetches := 0, outcome := .running }
  | fuel + 1, n, cache =>
    if wait n then
      { sent := [], waits := 1, fetches := 0, outcome := .cancelled }
    else
      match fetch n with
      | none =>
          { sent := [errCall], waits := 1, fetches := 1,
            outcome := .errorHalt }
      | some body =>
          if body ≠ cache then
            let r := pollIters chat_id endp fetch wait fuel (n + 1) body
            { sent := updCall chat_id endp :: r.sent, waits := r.waits + 1,
              fetches := r.fetches + 1, outcome := r.outcome }
          else
            let r := pollIters chat_id endp fetch wait fuel (n + 1) cache
            { r with waits := r.waits + 1, fetches := r.fetches + 1 }

/-- Model of `Scraper._search_for_updates`: the baseline
`cache = requests.get(self._endp).text` runs first, outside any `try`; when
it raises (`baseline = none`) the exception escapes the method before any
wait, notification or further fetch. Otherwise the poll loop runs with the
baseline body as initial snapshot. -/
def searchForUpdates (chat_id endp : String) (baseline : Option String)
    (fetch : Nat → Option String) (wait : Nat → Bool) (fuel : Nat) :
    LoopRun :=
  match baseline with
  | none => { sent := [], waits := 0, fetches := 1, outcome := .baselineRaise }
  | some cache =>
      let r := pollIters chat_id endp fetch wait fuel 0 cache
      { r with fetches := r.fetches + 1 }

/-- Rendering of the claim's reading of spec §4.1 step 1, for comparison with
`searchForUpdates`: "If this initial fetch fails, the Watcher still proceeds
to step 2 using an undefined/empty baseline" — i.e. on baseline failure the
loop would run anyway with an empty snapshot. -/
def searchForUpdatesClaim (chat_id endp : String) (baseline : Option String)
    (fetch : Nat → Option String) (wait : Nat → Bool) (fuel : Nat) :
    LoopRun :=
  match baseline with
  | none =>
      let r := pollIters chat_id endp fetch wait fuel 0 ""
      { r with fetches := r.fetches + 1 }
  | some cache =>
      let r := pollIters chat_id endp fetch wait fuel 0 cache
      { r with fetches := r.fetches + 1 }

/-- Scrapers are Python objects; the registry maps names to object ids so
that aliasing (an orphaned Scraper replaced in its slot but never stopped)
stays observable. -/
abbrev ScraperId := Nat

/-- Inner dict of one tenant: `name -> Scraper` (here: name -> object id). -/
abbrev Inner := List (String × ScraperId)

/-- The shared `urls` dict of `handlers.py`: `chat_id -> name -> Scraper`. -/
abbrev Urls := List (String × Inner)

/-- Mutable state the handlers act on: the `urls` dict, the heap of Scraper
objects, and the next fresh Python object id. -/
structure Env where
  urls : Urls
  store : List (ScraperId × Scraper)
  nextId : ScraperId
  deriving DecidableEq, Repr

/-- The empty initial state (`user_urls = {}` in `app.py`). -/
def env0 : Env := { urls := [], store := [], nextId := 0 }

/-- Numeric value of one decimal digit character. -/
def digitVal (c : Char) : Option Nat :=
  if c.isDigit then some (c.toNat - '0'.toNat) else none

/-- Accumulating decimal parser over a character list; fails on the first
non-digit. -/
def digitsToNat (acc : Nat) : List Char → Option Nat
  | [] => some acc
  | c :: t =>
    match digitVal c with
    | some d => digitsToNat (acc * 10 + d) t
    | none => none

/-- Model of Python `int(s)` on command arguments: optional sign followed by
at least one decimal digit, `none` = `ValueError`. (Python's `int` also
strips surrounding whitespace and accepts underscores; those inputs cannot
reach the claims considered here and are modelled as failures.) -/
def pyInt (s : String) : Option Int :=
  match s.data with
  | [] => none
  | '-' :: t =>
      if t.isEmpty then none
      else (digitsToNat 0 t).map (fun n => -(n : Int))
  | '+' :: t =>
      if t.isEmpty then none
      else (digitsToNat 0 t).map (fun n => (n : Int))
  | l => (digitsToNat 0 l).map (fun n => (n : Int))

def msgAddUsage : String := "you have to pass a name and a url to add"
def msgPosInterval : String := "interval must be a positive integer"
def msgRemoveUsage : String := "you have to pass the name of an url to remove"
def msgNoUrls : String := "no urls are being monitored"
def msgTimerUsage : String := "you have to pass the name of an url"
def msgNoSuchUrl : String := "no such url under monitoring"
def msgTimerSetUsage : String :=
  "you have to pass the name of an url and a positive interval"
def msgEndAll : String := "stopping the monitor task for your user"

/-- Lines 137–138 of the `add` handler: `if chat_id not in urls:
urls[chat_id] = {}`. -/
def ensureTenant (urls : Urls) (chat_id : String) : Urls :=
  match lookupk urls chat_id with
  | some _ => urls
  | none => setk urls chat_id []

/-- Tail of the `add` handler (`handlers.py` lines 142–147): assign the new
Scraper into `urls[chat_id][name]`, then call `.start()` on it (which, being
freshly constructed, always succeeds), then reply `monitoring: {name}`. -/
def finishAdd (env : Env) (chat_id name : String) (s : Scraper) :
    Env × List String × Option PyErr :=
  let iD := env.nextId
  let inner := (lookupk env.urls chat_id).getD []
  let urls2 := setk env.urls chat_id (setk inner name iD)
  let store2 := setk env.store iD s
  let r := Scraper.start s
  let store3 := setk store2 iD r.1
  match r.2 with
  | some e => ({ urls := urls2, store := store3, nextId := iD + 1 }, [], some e)
  | none =>
      ({ urls := urls2, store := store3, nextId := iD + 1 },
       ["monitoring: " ++ name], none)

/-- Model of the `add` handler: `IndexError` on missing name/url is caught
(usage reply); the tenant entry is ensured; with exactly three arguments
`int(args[2])` then the Scraper constructor may raise `ValueError`, caught
with the interval reply (the tenant-entry creation persists); otherwise a
Scraper with the default interval is built; on success the Scraper is
registered and started. Result: new state, replies, uncaught exception. -/
def add (env : Env) (chat_id : String) (args : List String) :
    Env × List String × Option PyErr :=
  match args with
  | [name, url, ivStr] =>
      let env1 := { env with urls := ensureTenant env.urls chat_id }
      (match pyInt ivStr with
       | none => (env1, [msgPosInterval], none)
       | some iv =>
         match Scraper.init chat_id url (some iv) with
         | Except.error _ => (env1, [msgPosInterval], none)
         | Except.ok s => finishAdd env1 chat_id name s)
  | name :: url :: _ =>
      let env1 := { env with urls := ensureTenant env.urls chat_id }
      (match Scraper.init chat_id url none with
       | Except.error _ => (env1, [msgPosInterval], none)
       | Except.ok s => finishAdd env1 chat_id name s)
  | _ => (env, [msgAddUsage], none)

/-- Model of the `remove` handler: `IndexError` on a missing name argument is
caught; `urls[chat_id]` raises an uncaught `KeyError` when the tenant has no
entry (only `IndexError` is caught here); when the name is present the slot
is popped and the Scraper stopped; otherwise a no-monitor reply. -/
def remove (env : Env) (chat_id : String) (args : List String) :
    Env × List String × Option PyErr :=
  match args with
  | [] => (env, [msgRemoveUsage], none)
  | name :: _ =>
    match lookupk env.urls chat_id with
    | none => (env, [], some PyErr.keyError)
    | some inner =>
      match lookupk inner name with
      | some iD =>
          let urls2 := setk env.urls chat_id (popk inner name)
          let store2 :=
            match lookupk env.store iD with
            | some s => setk env.store iD (Scraper.stop s)
            | none => env.store
          ({ env with urls := urls2, store := store2 },
           ["stopping the monitor for: " ++ name], none)
      | none => (env, ["no active monitor for: " ++ name], none)

/-- Model of the `list_urls` handler: when the tenant is absent or has an
empty inner dict, `urls[chat_id] = {}` is (re)assigned and the no-urls reply
is sent; otherwise the newline-joined names. -/
def list_urls (env : Env) (chat_id : String) :
    Env × List String × Option PyErr :=
  match lookupk env.urls chat_id with
  | none =>
      ({ env with urls := setk env.urls chat_id [] }, [msgNoUrls], none)
  | some inner =>
    if inner.length == 0 then
      ({ env with urls := setk env.urls chat_id [] }, [msgNoUrls], none)
    else
      (env, [String.intercalate "\n" (inner.map Prod.fst)], none)

/-- Sequential model of the `for name, scraper in user.items(): scraper.stop()`
loop of the `end` handler. -/
def stopAll (st : List (ScraperId × Scraper)) :
    Inner → List (ScraperId × Scraper)
  | [] => st
  | p :: t =>
    stopAll
      (match lookupk st p.2 with
       | some s => setk st p.2 (Scraper.stop s)
       | none => st) t

/-- Model of the `end` handler: pops the tenant entry when present, stops
every Scraper in it with one reply each, then the final reply. -/
def end_ (env : Env) (chat_id : String) : Env × List String × Option PyErr :=
  match lookupk env.urls chat_id with
  | some inner =>
      let urls2 := popk env.urls chat_id
      let store2 := stopAll env.store inner
      ({ env with urls := urls2, store := store2 },
       inner.map (fun p => "stopping the monitor for: " ++ p.1) ++ [msgEndAll],
       none)
  | none => (env, [msgEndAll], none)

/-- Model of the `timer` handler: pure read; `IndexError` and `KeyError` are
both caught. -/
def timer (env : Env) (chat_id : String) (args : List String) :
    Env × List String × Option PyErr :=
  match args with
  | [] => (env, [msgTimerUsage], none)
  | name :: _ =>
    match lookupk env.urls chat_id with
    | none => (env, [msgNoSuchUrl], none)
    | some inner =>
      match lookupk inner name with
      | none => (env, [msgNoSuchUrl], none)
      | some iD =>
        match lookupk env.store iD with
        | none => (env, [msgNoSuchUrl], none)
        | some s =>
            (env,
             ["current timer for " ++ name ++ ": " ++ toString s.interval
               ++ "s"], none)

/-- Model of the `timer_set` handler: `IndexError` (fewer than two arguments)
and `ValueError` (`int(args[1])`) and `KeyError` (unknown tenant or name) are
caught; a non-positive parsed interval is rejected before any mutation; on an
existing slot the Scraper's `timer` setter runs — its mutations persist and
any `RuntimeError` it raises propagates uncaught (only the three classes
above are caught). -/
def timer_set (env : Env) (chat_id : String) (args : List String) :
    Env × List String × Option PyErr :=
  match args with
  | name :: ivStr :: _ =>
    (match pyInt ivStr with
     | none => (env, [msgPosInterval], none)
     | some interval =>
       if interval ≤ 0 then (env, [msgPosInterval], none)
       else
         match lookupk env.urls chat_id with
         | none => (env, [msgNoSuchUrl], none)
         | some inner =>
           match lookupk inner name with
           | none => (env, [msgNoSuchUrl], none)
           | some iD =>
             match lookupk env.store iD with
             | none => (env, [msgNoSuchUrl], none)
             | some s =>
               let r := Scraper.setTimer s interval
               let env2 := { env with store := setk env.store iD r.1 }
               match r.2 with
               | some e => (env2, [], some e)
               | none =>
                   (env2,
                    ["new timer for " ++ name ++ ": "
                      ++ toString r.1.interval ++ "s"], none))
  | _ => (env, [msgTimerSetUsage], none)

/-- One engine operation, as dispatched by the bot command handlers. -/
inductive Op where
  | addO (chat_id : String) (args : List String)
  | removeO (chat_id : String) (args : List String)
  | listO (chat_id : String)
  | timerO (chat_id : String) (args : List String)
  | timerSetO (chat_id : String) (args : List String)
  | endO (chat_id : String)

/-- State reached after one engine operation. -/
def applyOp (env : Env) : Op → Env
  | .addO c a => (add env c a).1
  | .removeO c a => (remove env c a).1
  | .listO c => (list_urls env c).1
  | .timerO c a => (timer env c a).1
  | .timerSetO c a => (timer_set env c a).1
  | .endO c => (end_ env c).1

/-- Every Scraper object in the heap has a positive interval. -/
def StoreInv (env : Env) : Prop :=
  ∀ p, p ∈ env.store → 0 < p.2.interval

/-- The registered watcher id of slot `(chat_id, name)`, when occupied. -/
def slot (urls : Urls) (chat_id name : String) : Option ScraperId :=
  (lookupk urls chat_id).bind (fun inner => lookupk inner name)

/-- State after tenant `"42"` has added watcher `"n"` on `"http://u"` with
the default interval: one registered, started Scraper with object id 0. -/
def e1 : Env := (add env0 "42" ["n", "http://u"]).1

/-- The Scraper object held in `e1`: default interval, unset Event, started
thread. -/
def sc1 : Scraper :=
  { endp := "http://u", chat_id := "42", interval := 900,
    evt_set := false, evt_gen := 0, thread_started := true }

theorem slot_ensureTenant (urls : Urls) (c c' n : String) :
    slot (ensureTenant urls c) c' n = slot urls c' n := by
  unfold ensureTenant
  cases h : lookupk urls c with
  | some inner => rfl
  | none =>
    by_cases hc : c' = c
    · subst hc
      simp [slot, lookupk_setk_self, h, lookupk]
    · simp [slot, lookupk_setk_ne urls c c' [] hc]

theorem finishAdd_fst_store (env : Env) (c n : String) (s : Scraper) :
    (finishAdd env c n s).1.store =
      setk (setk env.store env.nextId s) env.nextId (Scraper.start s).1 := by
  cases h2 : (Scraper.start s).2 <;> simp [finishAdd, h2]

theorem init_interval_pos (c u : String) (iv : Option Int) (s : Scraper)
    (h : Scraper.init c u iv = Except.ok s) : 0 < s.interval := by
  cases iv with
  | none =>
    simp only [Scraper.init] at h
    obtain rfl := (Except.ok.inj h)
    norm_num
  | some i =>
    by_cases hle : i ≤ 0
    · simp [Scraper.init, hle] at h
    · simp only [Scraper.init, hle, if_neg, not_false_iff] at h
      obtain rfl := (Except.ok.inj h)
      exact lt_of_not_ge (by simpa using hle)

theorem storeInv_setk (st : List (ScraperId × Scraper)) (iD : ScraperId)
    (s : Scraper) (h : ∀ p, p ∈ st → 0 < p.2.interval)
    (hs : 0 < s.interval) :
    ∀ p, p ∈ setk st iD s → 0 < p.2.interval := by
  intro p hp
  rcases mem_setk st iD s p hp with h1 | h1
  · exact h p h1
  · rw [h1]; exact hs

theorem storeInv_stopAll (st : List (ScraperId × Scraper)) (inner : Inner)
    (h : ∀ p, p ∈ st → 0 < p.2.interval) :
    ∀ p, p ∈ stopAll st inner → 0 < p.2.interval := by
  induction inner generalizing st with
  | nil => simpa [stopAll] using h
  | cons q t ih =>
    simp only [stopAll]
    cases hq : lookupk st q.2 with
    | none => exact ih st h
    | some s =>
      apply ih
      intro p hp
      rcases mem_setk st q.2 (Scraper.stop s) p hp with h1 | h1
      · exact h p h1
      · rw [h1]
        exact h (q.2, s) (lookupk_mem st q.2 s hq)

theorem add_three_pyInt_none (env : Env) (c n u ivStr : String)
    (h : pyInt ivStr = none) :
    add env c [n, u, ivStr] =
      ({ env with urls := ensureTenant env.urls c }, [msgPosInterval], none) := by
  simp [add, h]

theorem add_three_nonpos (env : Env) (c n u ivStr : String) (iv : Int)
    (hp : pyInt ivStr = some iv) (hle : iv ≤ 0) :
    add env c [n, u, ivStr] =
      ({ env with urls := ensureTenant env.urls c }, [msgPosInterval], none) := by
  simp [add, hp, Scraper.init, hle]

theorem add_three_pos (env : Env) (c n u ivStr : String) (iv : Int)
    (hp : pyInt ivStr = some iv) (hle : ¬ iv ≤ 0) :
    add env c [n, u, ivStr] =
      finishAdd { env with urls := ensureTenant env.urls c } c n
        { endp := u, chat_id := c, interval := iv,
          evt_set := false, evt_gen := 0, thread_started := false } := by
  simp [add, hp, Scraper.init, hle]

theorem add_default_eq (env : Env) (c n u : String) :
    add env c [n, u] =
      finishAdd { env with urls := ensureTenant env.urls c } c n
        { endp := u, chat_id := c, interval := 15 * 60,
          evt_set := false, evt_gen := 0, thread_started := false } := rfl

theorem add_ge4_eq (env : Env) (c n u x y : String) (t : List String) :
    add env c (n :: u :: x :: y :: t) =
      finishAdd { env with urls := ensureTenant env.urls c } c n
        { endp := u, chat_id := c, interval := 15 * 60,
          evt_set := false, evt_gen := 0, thread_started := false } := rfl

theorem remove_no_tenant (env : Env) (c name : String) (rest : List String)
    (h : lookupk env.urls c = none) :
    remove env c (name :: rest) = (env, [], some PyErr.keyError) := by
  simp [remove, h]

theorem remove_no_name (env : Env) (c name : String) (rest : List String)
    (inner : Inner) (h1 : lookupk env.urls c = some inner)
    (h2 : lookupk inner name = none) :
    remove env c (name :: rest) =
      (env, ["no active monitor for: " ++ name], none) := by
  simp [remove, h1, h2]

theorem remove_found (env : Env) (c name : String) (rest : List String)
    (inner : Inner) (iD : ScraperId) (s : Scraper)
    (h1 : lookupk env.urls c = some inner)
    (h2 : lookupk inner name = some iD)
    (h3 : lookupk env.store iD = some s) :
    remove env c (name :: rest) =
      ({ env with urls := setk env.urls c (popk inner name),
                  store := setk env.store iD (Scraper.stop s) },
       ["stopping the monitor for: " ++ name], none) := by
  simp [remove, h1, h2, h3]

theorem remove_found_nostore (env : Env) (c name : String)
    (rest : List String) (inner : Inner) (iD : ScraperId)
    (h1 : lookupk env.urls c = some inner)
    (h2 : lookupk inner name = some iD)
    (h3 : lookupk env.store iD = none) :
    remove env c (name :: rest) =
      ({ env with urls := setk env.urls c (popk inner name) },
       ["stopping the monitor for: " ++ name], none) := by
  simp [remove, h1, h2, h3]

theorem list_urls_no_tenant (env : Env) (c : String)
    (h : lookupk env.urls c = none) :
    list_urls env c =
      ({ env with urls := setk env.urls c [] }, [msgNoUrls], none) := by
  simp [list_urls, h]

theorem list_urls_empty (env : Env) (c : String)
    (h : lookupk env.urls c = some []) :
    list_urls env c =
      ({ env with urls := setk env.urls c [] }, [msgNoUrls], none) := by
  simp [list_urls, h]

theorem list_urls_nonempty (env : Env) (c : String) (inner : Inner)
    (h : lookupk env.urls c = some inner) (hne : inner ≠ []) :
    list_urls env c =
      (env, [String.intercalate "\n" (inner.map Prod.fst)], none) := by
  have hlen : (inner.length == 0) = false := by
    cases inner with
    | nil => exact absurd rfl hne
    | cons a t => rfl
  simp [list_urls, h, hlen]

theorem end_no_tenant (env : Env) (c : String)
    (h : lookupk env.urls c = none) :
    end_ env c = (env, [msgEndAll], none) := by
  simp [end_, h]

theorem end_found (env : Env) (c : String) (inner : Inner)
    (h : lookupk env.urls c = some inner) :
    end_ env c =
      ({ env with urls := popk env.urls c, store := stopAll env.store inner },
       inner.map (fun p => "stopping the monitor for: " ++ p.1) ++ [msgEndAll],
       none) := by
  simp [end_, h]

theorem timer_set_pyInt_none (env : Env) (c n ivStr : String)
    (rest : List String) (hp : pyInt ivStr = none) :
    timer_set env c (n :: ivStr :: rest) = (env, [msgPosInterval], none) := by
  simp [timer_set, hp]

theorem timer_set_nonpos (env : Env) (c n ivStr : String)
    (rest : List String) (iv : Int)
    (hp : pyInt ivStr = some iv) (hle : iv ≤ 0) :
    timer_set env c (n :: ivStr :: rest) = (env, [msgPosInterval], none) := by
  simp [timer_set, hp, hle]

theorem timer_set_no_tenant (env : Env) (c n ivStr : String)
    (rest : List String) (iv : Int)
    (hp : pyInt ivStr = some iv) (hle : ¬ iv ≤ 0)
    (h1 : lookupk env.urls c = none) :
    timer_set env c (n :: ivStr :: rest) = (env, [msgNoSuchUrl], none) := by
  simp [timer_set, hp, hle, h1]

theorem timer_set_no_name (env : Env) (c n ivStr : String)
    (rest : List String) (iv : Int) (inner : Inner)
    (hp : pyInt ivStr = some iv) (hle : ¬ iv ≤ 0)
    (h1 : lookupk env.urls c = some inner)
    (h2 : lookupk inner n = none) :
    timer_set env c (n :: ivStr :: rest) = (env, [msgNoSuchUrl], none) := by
  simp [timer_set, hp, hle, h1, h2]

theorem timer_set_no_store (env : Env) (c n ivStr : String)
    (rest : List String) (iv : Int) (inner : Inner) (iD : ScraperId)
    (hp : pyInt ivStr = some iv) (hle : ¬ iv ≤ 0)
    (h1 : lookupk env.urls c = some inner)
    (h2 : lookupk inner n = some iD)
    (h3 : lookupk env.store iD = none) :
    timer_set env c (n :: ivStr :: rest) = (env, [msgNoSuchUrl], none) := by
  simp [timer_set, hp, hle, h1, h2, h3]

theorem timer_set_found_fst (env : Env) (c n ivStr : String)
    (rest : List String) (iv : Int) (inner : Inner) (iD : ScraperId)
    (s : Scraper)
    (hp : pyInt ivStr = some iv) (hle : ¬ iv ≤ 0)
    (h1 : lookupk env.urls c = some inner)
    (h2 : lookupk inner n = some iD)
    (h3 : lookupk env.store iD = some s) :
    (timer_set env c (n :: ivStr :: rest)).1 =
      { env with store := setk env.store iD (Scraper.setTimer s iv).1 } := by
  cases h4 : (Scraper.setTimer s iv).2 <;>
    simp [timer_set, hp, hle, h1, h2, h3, h4]

theorem storeInv_finishAdd (env : Env) (c n : String) (s : Scraper)
    (h : StoreInv env) (hs : 0 < s.interval) :
    StoreInv (finishAdd env c n s).1 := by
  intro p hp
  rw [finishAdd_fst_store] at hp
  refine storeInv_setk _ _ _ (storeInv_setk _ _ _ h hs) ?_ p hp
  rw [start_fst_interval]
  exact hs

theorem storeInv_add (env : Env) (c : String) (a : List String)
    (h : StoreInv env) : StoreInv (add env c a).1 := by
  have hdef : (0 : Int) < 15 * 60 := by norm_num
  cases a with
  | nil => exact h
  | cons name t =>
    cases t with
    | nil => exact h
    | cons url t2 =>
      cases t2 with
      | nil =>
        rw [add_default_eq]
        exact storeInv_finishAdd _ c name _ h hdef
      | cons ivStr t3 =>
        cases t3 with
        | nil =>
          cases hp : pyInt ivStr with
          | none =>
            rw [add_three_pyInt_none env c name url ivStr hp]
            exact h
          | some iv =>
            by_cases hle : iv ≤ 0
            · rw [add_three_nonpos env c name url ivStr iv hp hle]
              exact h
            · rw [add_three_pos env c name url ivStr iv hp hle]
              exact storeInv_finishAdd _ c name _ h
                (lt_of_not_ge (by simpa using hle))
        | cons x t4 =>
          rw [add_ge4_eq]
          exact storeInv_finishAdd _ c name _ h hdef

theorem storeInv_remove (env : Env) (c : String) (a : List String)
    (h : StoreInv env) : StoreInv (remove env c a).1 := by
  cases a with
  | nil => exact h
  | cons name t =>
    cases h1 : lookupk env.urls c with
    | none =>
      rw [remove_no_tenant env c name t h1]
      exact h
    | some inner =>
      cases h2 : lookupk inner name with
      | none =>
        rw [remove_no_name env c name t inner h1 h2]
        exact h
      | some iD =>
        cases h3 : lookupk env.store iD with
        | none =>
          rw [remove_found_nostore env c name t inner iD h1 h2 h3]
          exact h
        | some s =>
          rw [remove_found env c name t inner iD s h1 h2 h3]
          intro p hp
          rcases mem_setk env.store iD (Scraper.stop s) p hp with hm | hm
          · exact h p hm
          · rw [hm]
            exact h (iD, s) (lookupk_mem env.store iD s h3)

theorem storeInv_list_urls (env : Env) (c : String)
    (h : StoreInv env) : StoreInv (list_urls env c).1 := by
  cases h1 : lookupk env.urls c with
  | none =>
    rw [list_urls_no_tenant env c h1]
    exact h
  | some inner =>
    cases inner with
    | nil =>
      rw [list_urls_empty env c h1]
      exact h
    | cons q t =>
      rw [list_urls_nonempty env c (q :: t) h1 (by simp)]
      exact h

theorem storeInv_timer_set (env : Env) (c : String) (a : List String)
    (h : StoreInv env) : StoreInv (timer_set env c a).1 := by
  cases a with
  | nil => exact h
  | cons name t =>
    cases t with
    | nil => exact h
    | cons ivStr t2 =>
      cases hp : pyInt ivStr with
      | none =>
        rw [timer_set_pyInt_none env c name ivStr t2 hp]
        exact h
      | some iv =>
        by_cases hle : iv ≤ 0
        · rw [timer_set_nonpos env c name ivStr t2 iv hp hle]
          exact h
        · cases h1 : lookupk env.urls c with
          | none =>
            rw [timer_set_no_tenant env c name ivStr t2 iv hp hle h1]
            exact h
          | some inner =>
            cases h2 : lookupk inner name with
            | none =>
              rw [timer_set_no_name env c name ivStr t2 iv inner hp hle h1 h2]
              exact h
            | some iD =>
              cases h3 : lookupk env.store iD with
              | none =>
                rw [timer_set_no_store env c name ivStr t2 iv inner iD
                  hp hle h1 h2 h3]
                exact h
              | some s =>
                rw [timer_set_found_fst env c name ivStr t2 iv inner iD s
                  hp hle h1 h2 h3]
                intro p hp2
                rcases mem_setk env.store iD (Scraper.setTimer s iv).1 p hp2
                  with hm | hm
                · exact h p hm
                · rw [hm]
                  show 0 < (Scraper.setTimer s iv).1.interval
                  rw [setTimer_fst_interval]
                  exact lt_of_not_ge (by simpa using hle)

theorem timer_fst (env : Env) (c : String) (a : List String) :
    (timer env c a).1 = env := by
  cases a with
  | nil => rfl
  | cons name t =>
    cases h1 : lookupk env.urls c with
    | none => simp [timer, h1]
    | some inner =>
      cases h2 : lookupk inner name with
      | none => simp [timer, h1, h2]
      | some iD =>
        cases h3 : lookupk env.store iD with
        | none => simp [timer, h1, h2, h3]
        | some s => simp [timer, h1, h2, h3]

theorem storeInv_end (env : Env) (c : String)
    (h : StoreInv env) : StoreInv (end_ env c).1 := by
  cases h1 : lookupk env.urls c with
  | none =>
    rw [end_no_tenant env c h1]
    exact h
  | some inner =>
    rw [end_found env c inner h1]
    exact storeInv_stopAll env.store inner h

theorem storeInv_applyOp (env : Env) (op : Op)
    (h : StoreInv env) : StoreInv (applyOp env op) := by
  cases op with
  | addO c a => exact storeInv_add env c a h
  | removeO c a => exact storeInv_remove env c a h
  | listO c => exact storeInv_list_urls env c h
  | timerO c a =>
    show StoreInv (timer env c a).1
    rw [timer_fst]
    exact h
  | timerSetO c a => exact storeInv_timer_set env c a h
  | endO c => exact storeInv_end env c h

theorem finishAdd_fst_urls (env : Env) (c n : String) (s : Scraper) :
    (finishAdd env c n s).1.urls =
      setk env.urls c (setk ((lookupk env.urls c).getD []) n env.nextId) := by
  cases h2 : (Scraper.start s).2 <;> simp [finishAdd, h2]

/-- C1: `setInterval` on a registered, started watcher does NOT perform a
fresh start of the poll loop. The `Scraper.timer` setter ends in
`self.start()`, i.e. `self._thread.start()` on the single Thread object
created in `__init__` and already started by `add`; Python threads can be
started at most once, so the call raises `RuntimeError`, which `timer_set`
does not catch (it catches only `IndexError`, `ValueError`, `KeyError`).
Both a first and a second `set_timer` call raise; the stored Scraper keeps
the new interval and a fresh unset Event, but no new loop is started. -/
theorem C1_set_interval_runtime_error :
    (timer_set e1 "42" ["n", "10"]).2 = ([], some PyErr.runtimeError) ∧
    (timer_set (timer_set e1 "42" ["n", "10"]).1 "42" ["n", "7"]).2 =
      ([], some PyErr.runtimeError) ∧
    lookupk (timer_set e1 "42" ["n", "10"]).1.store 0 =
      some { endp := "http://u", chat_id := "42", interval := 10,
             evt_set := false, evt_gen := 1, thread_started := true } :=
  ⟨rfl, rfl, rfl⟩

/-- C2 counterexample: a watcher whose baseline fetch fails does NOT proceed
to the wait-for-interval-or-cancel step. Line 86 of `handlers.py` runs
outside any `try`, so the exception escapes `_search_for_updates`: the run
performs zero waits, emits nothing, and ends in `baselineRaise`; it differs
from the claim's reading (`searchForUpdatesClaim`, which continues the loop
with an empty baseline and would emit a spurious change notification). -/
theorem C2_baseline_failure_cex :
    (searchForUpdates "42" "http://u" none (fun _ => some "X")
        (fun _ => false) 3).waits = 0 ∧
    (searchForUpdates "42" "http://u" none (fun _ => some "X")
        (fun _ => false) 3).sent = [] ∧
    (searchForUpdates "42" "http://u" none (fun _ => some "X")
        (fun _ => false) 3).outcome = LoopOutcome.baselineRaise ∧
    searchForUpdates "42" "http://u" none (fun _ => some "X")
        (fun _ => false) 3 ≠
      searchForUpdatesClaim "42" "http://u" none (fun _ => some "X")
        (fun _ => false) 3 := by
  refine ⟨rfl, rfl, rfl, ?_⟩
  decide

/-- C2 amended: for every watcher whose very first (baseline) fetch fails,
the poll routine terminates at once — regardless of the fetch and wait
oracles it never reaches the wait step, performs no further fetch attempt,
and emits no notification; the exception propagates out of the loop body. -/
theorem C2_baseline_failure_amended (c e : String)
    (fetch : Nat → Option String) (wait : Nat → Bool) (fuel : Nat) :
    searchForUpdates c e none fetch wait fuel =
      { sent := [], waits := 0, fetches := 1,
        outcome := LoopOutcome.baselineRaise } := rfl

/-- C3: with fetch sequence `["ok", "fail"]` the watcher makes exactly one
`send_message` call and halts — no retry, no further fetches (2 attempts
total out of 5 available cycles), no change notification. But the call is
NOT addressed to the owning tenant: line 91 passes the error text as the
sole positional argument (which binds to the `chat_id` parameter of
`Bot.send_message`) and passes no `chat_id=` keyword, unlike the change
notification at line 95. -/
theorem C3_fetch_failure_notification :
    searchForUpdates "42" "http://u" (some "ok") (fun _ => none)
        (fun _ => false) 5 =
      { sent := [errCall], waits := 1, fetches := 2,
        outcome := LoopOutcome.errorHalt } ∧
    ¬ sendAddressedTo errCall "42" ∧
    errCall.kw_chat_id = none ∧
    errCall ≠ updCall "42" "http://u" := by
  refine ⟨rfl, ?_, rfl, ?_⟩ <;> decide

/-- C4: a successful in-loop fetch compares the new body to the snapshot by
exact equality — equal body: no notification, snapshot kept; different body:
exactly one change notification `{chat_id, endpoint}` and the snapshot is
replaced. In the spec's scenario (bodies "A", "A", "B"; the first is the
baseline) exactly one change notification is emitted, none after the first
poll cycle, one after the second. -/
theorem C4_exact_equality_diff (c e cache body : String) :
    (searchForUpdates c e (some cache) (fun _ => some body)
        (fun _ => false) 1 =
      if body = cache then
        { sent := [], waits := 1, fetches := 2,
          outcome := LoopOutcome.running }
      else
        { sent := [updCall c e], waits := 1, fetches := 2,
          outcome := LoopOutcome.running }) ∧
    searchForUpdates c e (some "A")
        (fun n => if n == 0 then some "A" else some "B")
        (fun _ => false) 1 =
      { sent := [], waits := 1, fetches := 2,
        outcome := LoopOutcome.running } ∧
    searchForUpdates c e (some "A")
        (fun n => if n == 0 then some "A" else some "B")
        (fun _ => false) 3 =
      { sent := [updCall c e], waits := 3, fetches := 4,
        outcome := LoopOutcome.running } := by
  refine ⟨?_, rfl, rfl⟩
  by_cases h : body = cache
  · simp [searchForUpdates, pollIters, h]
  · simp [searchForUpdates, pollIters, h]

/-- C5: non-positive intervals are rejected — `add` with a parsed interval
`iv ≤ 0` leaves the Scraper heap untouched (no watcher constructed or
started) and replies the interval error; `set_timer` with `iv ≤ 0` returns
with the whole state unchanged (no stop, no restart); and positivity of
every stored watcher's interval is preserved by every engine operation. -/
theorem C5_interval_validation :
    (∀ env : Env, ∀ c name url ivStr : String, ∀ iv : Int,
       pyInt ivStr = some iv → iv ≤ 0 →
       (add env c [name, url, ivStr]).1.store = env.store ∧
       (add env c [name, url, ivStr]).2 = ([msgPosInterval], none)) ∧
    (∀ env : Env, ∀ c name ivStr : String, ∀ iv : Int, ∀ rest : List String,
       pyInt ivStr = some iv → iv ≤ 0 →
       timer_set env c (name :: ivStr :: rest) =
         (env, [msgPosInterval], none)) ∧
    (∀ env : Env, ∀ op : Op, StoreInv env → StoreInv (applyOp env op)) := by
  refine ⟨?_, ?_, ?_⟩
  · intro env c name url ivStr iv hp hle
    rw [add_three_nonpos env c name url ivStr iv hp hle]
    exact ⟨rfl, rfl⟩
  · intro env c name ivStr iv rest hp hle
    exact timer_set_nonpos env c name ivStr rest iv hp hle
  · intro env op h
    exact storeInv_applyOp env op h

theorem C5_witness :
    ((add env0 "42" ["n", "http://u", "-3"]).1.store = env0.store ∧
     (add env0 "42" ["n", "http://u", "-3"]).2 = ([msgPosInterval], none)) ∧
    timer_set e1 "42" ["n", "0"] = (e1, [msgPosInterval], none) ∧
    StoreInv (applyOp env0 (Op.addO "42" ["n", "http://u", "5"])) :=
  ⟨C5_interval_validation.1 env0 "42" "n" "http://u" "-3" (-3) rfl
     (by norm_num),
   C5_interval_validation.2.1 e1 "42" "n" "0" 0 [] rfl (le_refl 0),
   C5_interval_validation.2.2 env0 (Op.addO "42" ["n", "http://u", "5"])
     (fun p hp => absurd hp (List.not_mem_nil p))⟩

/-- C6: `remove` pops and stops an existing watcher and reports it
("stopping the monitor for: n"); a second call reports absence ("no active
monitor for: n") without error, and after either call the slot is gone and
`list` shows no urls. BUT for a tenant with no registry entry at all,
`urls[chat_id]` raises `KeyError`, which `remove` does not catch (it catches
only `IndexError`, unlike `timer`/`timer_set`) — not the no-op success the
spec states. -/
theorem C6_remove_idempotence_keyerror :
    remove env0 "42" ["n"] = (env0, [], some PyErr.keyError) ∧
    (remove e1 "42" ["n"]).2 = (["stopping the monitor for: n"], none) ∧
    (remove (remove e1 "42" ["n"]).1 "42" ["n"]).2 =
      (["no active monitor for: n"], none) ∧
    slot (remove e1 "42" ["n"]).1.urls "42" "n" = none ∧
    (list_urls (remove e1 "42" ["n"]).1 "42").2.1 = [msgNoUrls] ∧
    lookupk (remove e1 "42" ["n"]).1.store 0 =
      some { endp := "http://u", chat_id := "42", interval := 900,
             evt_set := true, evt_gen := 0, thread_started := true } :=
  ⟨rfl, rfl, rfl, rfl, rfl, rfl⟩

/-- C7: `add` over an occupied `(tenant, name)` slot replaces the slot with
a freshly constructed and started Scraper under a new object id, while the
old Scraper object is left with exactly its previous state — in particular
its cancellation Event is never set and its thread state is unchanged
(`stop()` is never called on it). -/
theorem C7_replace_without_stop (env : Env) (c n url : String)
    (inner : Inner) (oldId : ScraperId) (oldS : Scraper)
    (h1 : lookupk env.urls c = some inner)
    (h2 : lookupk inner n = some oldId)
    (h3 : lookupk env.store oldId = some oldS)
    (h4 : oldId ≠ env.nextId) :
    lookupk (add env c [n, url]).1.store oldId = some oldS ∧
    slot (add env c [n, url]).1.urls c n = some env.nextId ∧
    lookupk (add env c [n, url]).1.store env.nextId =
      some { endp := url, chat_id := c, interval := 15 * 60,
             evt_set := false, evt_gen := 0, thread_started := true } := by
  have het : ensureTenant env.urls c = env.urls := by
    simp [ensureTenant, h1]
  rw [add_default_eq]
  refine ⟨?_, ?_, ?_⟩
  · rw [finishAdd_fst_store]
    rw [lookupk_setk_ne _ _ _ _ h4, lookupk_setk_ne _ _ _ _ h4]
    exact h3
  · simp [slot, finishAdd_fst_urls, het, h1, lookupk_setk_self]
  · simp [finishAdd_fst_store, lookupk_setk_self, Scraper.start]

theorem C7_witness :
    lookupk (add e1 "42" ["n", "http://u2"]).1.store 0 = some sc1 ∧
    slot (add e1 "42" ["n", "http://u2"]).1.urls "42" "n" = some e1.nextId ∧
    lookupk (add e1 "42" ["n", "http://u2"]).1.store e1.nextId =
      some { endp := "http://u2", chat_id := "42", interval := 15 * 60,
             evt_set := false, evt_gen := 0, thread_started := true } :=
  C7_replace_without_stop e1 "42" "n" "http://u2" [("n", 0)] 0 sc1
    rfl rfl rfl (by decide)

/-- C8: `add` with a missing name or url argument raises `IndexError` at
`context.args[0]`/`[1]`, before any mutation; it is caught and answered with
the usage message, and the state — registry and Scraper heap — is exactly
unchanged: no watcher is constructed, registered, or started. -/
theorem C8_missing_arguments (env : Env) (c n : String) :
    add env c [] = (env, [msgAddUsage], none) ∧
    add env c [n] = (env, [msgAddUsage], none) :=
  ⟨rfl, rfl⟩

/-- C9: `list` for a tenant with no watchers — absent entry or present but
empty — replies that no urls are monitored (the empty sequence, never an
error) and as a side effect (re)assigns an empty inner dict for the tenant,
so the tenant entry exists afterwards. -/
theorem C9_list_fresh_tenant (env : Env) (c : String)
    (h : lookupk env.urls c = none ∨ lookupk env.urls c = some []) :
    list_urls env c =
      ({ env with urls := setk env.urls c [] }, [msgNoUrls], none) ∧
    lookupk (list_urls env c).1.urls c = some [] := by
  have key : list_urls env c =
      ({ env with urls := setk env.urls c [] }, [msgNoUrls], none) := by
    rcases h with h | h
    · exact list_urls_no_tenant env c h
    · exact list_urls_empty env c h
  refine ⟨key, ?_⟩
  rw [key]
  exact lookupk_setk_self env.urls c []

theorem C9_witness :
    list_urls env0 "42" =
      ({ env0 with urls := setk env0.urls "42" [] }, [msgNoUrls], none) ∧
    lookupk (list_urls env0 "42").1.urls "42" = some [] :=
  C9_list_fresh_tenant env0 "42" (Or.inl rfl)

/-- C10: when `add` fails — missing name/url, unparsable interval, or
interval ≤ 0 — the Scraper heap is untouched and the `(tenant, name)` slot
is unchanged (a previously registered watcher stays registered with its
object state intact); the missing-argument failures leave the whole state
unchanged. (The only mutation a failed three-argument `add` makes is
creating an empty tenant entry, which does not affect any slot.) -/
theorem C10_failed_add_frame (env : Env) (c name url ivStr : String)
    (hfail : pyInt ivStr = none ∨
      ∃ iv : Int, pyInt ivStr = some iv ∧ iv ≤ 0) :
    (add env c [name, url, ivStr]).1.store = env.store ∧
    slot (add env c [name, url, ivStr]).1.urls c name =
      slot env.urls c name ∧
    (add env c [name, url, ivStr]).2 = ([msgPosInterval], none) ∧
    add env c [] = (env, [msgAddUsage], none) ∧
    add env c [name] = (env, [msgAddUsage], none) := by
  have key : add env c [name, url, ivStr] =
      ({ env with urls := ensureTenant env.urls c },
       [msgPosInterval], none) := by
    rcases hfail with h | ⟨iv, hp, hle⟩
    · exact add_three_pyInt_none env c name url ivStr h
    · exact add_three_nonpos env c name url ivStr iv hp hle
  rw [key]
  exact ⟨rfl, slot_ensureTenant env.urls c c name, rfl, rfl, rfl⟩

theorem C10_witness :
    (add e1 "42" ["n", "http://u", "0"]).1.store = e1.store ∧
    slot (add e1 "42" ["n", "http://u", "0"]).1.urls "42" "n" =
      slot e1.urls "42" "n" ∧
    (add e1 "42" ["n", "http://u", "0"]).2 = ([msgPosInterval], none) ∧
    add e1 "42" [] = (e1, [msgAddUsage], none) ∧
    add e1 "42" ["n"] = (e1, [msgAddUsage], none) :=
  C10_failed_add_frame e1 "42" "n" "http://u" "0"
    (Or.inr ⟨0, rfl, le_refl 0⟩)

end UpdateNotifier
